import Mathlib

/-!
Verification of the request-construction, pagination and error-normalization
core of a Redmine REST client library, against a shallow embedding of its Go
source.  Machine integers are modelled as `Int`/`Nat` (no overflow is relevant
to any statement here), Go errors as an explicit error datatype, and the HTTP
layer by passing the server response (with the outcome of each possible JSON
decode of its body) as an explicit argument.
-/

namespace Redmine

/-! ## Auth configuration (client.go: type AuthType, APIAuth, Client, NewClient) -/

/-- Go `type AuthType int`. -/
abbrev AuthType := Int

def AuthTypeBasicAuth : AuthType := 0

def AuthTypeTokenQueryParam : AuthType := 1

def AuthTypeBasicAuthWithTokenPassword : AuthType := 2

def AuthTypeNoAuth : AuthType := 3

def NoSetting : Int := -1

def DefaultLimit : Int := NoSetting

def DefaultOffset : Int := NoSetting

/-- Go struct `APIAuth` (field `AuthType AuthType; Token, User, Password string`);
field names are lower-cased to avoid clashing with the Lean type names. -/
structure APIAuth where
  authType : AuthType
  token : String
  user : String
  password : String
deriving DecidableEq

/-- Errors as produced by the Go code: `errors.New`/`fmt.Errorf` build a plain
message, `github.com/pkg/errors` wrapping prefixes a context, and errors coming
out of `encoding/json` are tagged separately (their text is produced by the Go
runtime, e.g. `"EOF"` for an empty body). -/
inductive GoError where
  | msg (m : String)
  | wrap (context : String) (cause : GoError)
  | jsonError (m : String)
deriving DecidableEq

/-- `Error()` of a `GoError`; `pkg/errors` renders a wrap as `context + ": " + cause`. -/
def GoError.message : GoError → String
  | .msg m => m
  | .wrap c e => c ++ ": " ++ e.message
  | .jsonError m => m

/-- Go `func (auth APIAuth) validate() error` (client.go). -/
def APIAuth.validate (auth : APIAuth) : Except GoError Unit :=
  if auth.authType < AuthTypeBasicAuth ∨ auth.authType > AuthTypeNoAuth then
    .error (.msg ("invalid auth configuration: AuthType " ++ toString auth.authType ++ " found"))
  else if (auth.authType = AuthTypeBasicAuth ∨ auth.authType = AuthTypeBasicAuthWithTokenPassword)
      ∧ auth.user = "" then
    .error (.msg ("invalid auth configuration for type " ++ toString auth.authType ++ ": user must not be empty"))
  else if (auth.authType = AuthTypeTokenQueryParam ∨ auth.authType = AuthTypeBasicAuthWithTokenPassword)
      ∧ auth.token = "" then
    .error (.msg ("invalid auth configuration for type " ++ toString auth.authType ++ ": API token must not be empty"))
  else
    .ok ()

/-- Go struct `Client` (client.go with `APIAuth`); the embedded `*http.Client`
transport is not part of the model. -/
structure Client where
  endpoint : String
  auth : APIAuth
  limit : Int
  offset : Int
deriving DecidableEq

/-- Go `func NewClient(endpoint string, auth APIAuth) (*Client, error)`:
validates the auth configuration and only then builds the client; a validation
failure is wrapped with `"could not create redmine client"`.  No request is
involved at this stage (the function merely fills the struct). -/
def NewClient (endpoint : String) (auth : APIAuth) : Except GoError Client :=
  match auth.validate with
  | .error e => .error (.wrap "could not create redmine client" e)
  | .ok _ =>
      .ok { endpoint := endpoint, auth := auth, limit := DefaultLimit, offset := DefaultOffset }

/-! ## Request construction (client.go: authenticatedRequest, safelyAddQueryParameter) -/

/-- A parsed URL: everything before the query string, plus the query as a list
of key/value pairs.  Go's `url.Values.Encode` canonicalizes the order of the
pairs when serializing; the claims below only depend on which pairs are
present, so the pair list keeps insertion order. -/
structure URL where
  base : String
  query : List (String × String)
deriving DecidableEq

/-- An outgoing `*http.Request` as far as the claims observe it: method, URL and
the optional HTTP Basic-Auth header installed by `req.SetBasicAuth(user, pass)`. -/
structure Request where
  method : String
  url : URL
  basicAuth : Option (String × String)
deriving DecidableEq

/-- Go `func safelyAddQueryParameter(req, key, value string) error` (client.go):
returns early when the parameter NAME `key` is empty, otherwise re-parses the
URL and appends `key=value` via `url.Values.Add`.  Re-parsing an already parsed
URL cannot fail in the model, so the error branch is dropped and the updated
request returned. -/
def safelyAddQueryParameter (req : Request) (key value : String) : Request :=
  if key = "" then req
  else { req with url := { req.url with query := req.url.query ++ [(key, value)] } }

/-- Go `func (c *Client) authenticatedRequest(method, urlWithoutAuthInfo string, body io.Reader)`
(client.go).  `http.NewRequest` is modelled as assembling the record from the
already-parsed URL (its error branch cannot fire in the model). -/
def Client.authenticatedRequest (c : Client) (method : String) (urlWithoutAuthInfo : URL) :
    Except GoError Request :=
  let req : Request := { method := method, url := urlWithoutAuthInfo, basicAuth := none }
  if c.auth.authType = AuthTypeBasicAuth then
    .ok { req with basicAuth := some (c.auth.user, c.auth.password) }
  else if c.auth.authType = AuthTypeTokenQueryParam then
    .ok (safelyAddQueryParameter req "key" c.auth.token)
  else if c.auth.authType = AuthTypeBasicAuthWithTokenPassword then
    .ok { req with basicAuth := some (c.auth.user, c.auth.token) }
  else if c.auth.authType = AuthTypeNoAuth then
    .ok req
  else
    .error (.msg "unsupported auth type")

/-! ## Resource data model (issue.go, project.go) -/

/-- Go struct `IdName` (client.go). -/
structure IdName where
  id : Int := 0
  name : String := ""
deriving DecidableEq

/-- Go struct `Id` (client.go); its single field is lower-cased. -/
structure Id where
  id : Int := 0
deriving DecidableEq

/-- Go struct `JournalDetails` (issue.go). -/
structure JournalDetails where
  property : String := ""
  name : String := ""
  oldValue : String := ""
  newValue : String := ""
deriving DecidableEq

/-- Go struct `Journal` (issue.go); `*IdName` pointers become `Option IdName`. -/
structure Journal where
  id : Int := 0
  user : Option IdName := none
  notes : String := ""
  createdOn : String := ""
  details : List JournalDetails := []
deriving DecidableEq

/-- Go struct `CustomField` (issue.go); the `interface{}` field `Value` carries
arbitrary decoded JSON and is modelled by its raw JSON text. -/
structure CustomField where
  id : Int := 0
  name : String := ""
  description : String := ""
  multiple : Bool := false
  value : String := ""
deriving DecidableEq

/-- Go struct `Issue` (issue.go).  Pointer fields become `Option`, slices become
lists, and every field defaults to the Go zero value.  Two fields are left out:
`DoneRatio float32` (floating point is outside this embedding) and
`Uploads []*Upload` (the `Upload` type is declared in a file outside the
snapshot); neither is inspected by any operation modelled here. -/
structure Issue where
  id : Int := 0
  subject : String := ""
  description : String := ""
  projectId : Int := 0
  project : Option IdName := none
  trackerId : Int := 0
  tracker : Option IdName := none
  parentId : Int := 0
  parent : Option Id := none
  statusId : Int := 0
  status : Option IdName := none
  priorityId : Int := 0
  priority : Option IdName := none
  author : Option IdName := none
  fixedVersion : Option IdName := none
  assignedTo : Option IdName := none
  category : Option IdName := none
  categoryId : Int := 0
  notes : String := ""
  statusDate : String := ""
  createdOn : String := ""
  updatedOn : String := ""
  startDate : String := ""
  dueDate : String := ""
  closedOn : String := ""
  customFields : List CustomField := []
  journals : List Journal := []
deriving DecidableEq

/-- Go struct `Project` (project.go). -/
structure Project where
  id : Int := 0
  parentID : Id := {}
  name : String := ""
  identifier : String := ""
  description : String := ""
  homepage : String := ""
  isPublic : Bool := false
  inheritMembers : Bool := false
  createdOn : String := ""
  updatedOn : String := ""
  status : Int := 0
deriving DecidableEq

/-- Go struct `issuesResult` (issue.go): the decoded shape of a list response. -/
structure issuesResult where
  issues : List Issue := []
  totalCount : Nat := 0
  offset : Nat := 0
  limit : Nat := 0
deriving DecidableEq

/-! ## HTTP responses

An `*http.Response` as the operations observe it.  The Go code decodes the
response body on demand with `encoding/json`; the model abstracts the JSON
parser by carrying, for each target shape, the outcome that decoding the body
into that shape would have (`.ok` the decoded value, or `.error` with the Go
json error text, e.g. `"EOF"` for an empty body). -/

deriving instance DecidableEq for Except

structure Response where
  statusCode : Nat := 200
  /-- Go `res.Status`, the literal status line, e.g. `"401 Unauthorized"`. -/
  status : String := "200 OK"
  /-- Outcome of decoding the body as `errorsResult` (`{"errors": [...]}`). -/
  errorsBody : Except String (List String) := .error "EOF"
  /-- Outcome of decoding the body as `issueResult` (`{"issue": {...}}`). -/
  issueBody : Except String Issue := .error "EOF"
  /-- Outcome of decoding the body as `projectResult` (`{"project": {...}}`). -/
  projectBody : Except String Project := .error "EOF"
  /-- Outcome of decoding the body as `issuesResult` (`{"issues": [...], "total_count": N, ...}`). -/
  issuesBody : Except String issuesResult := .error "EOF"
deriving DecidableEq

/-- Go `func isHTTPStatusSuccessful(httpStatus int, acceptedStatuses []int) bool`
(project.go). -/
def isHTTPStatusSuccessful (httpStatus : Nat) (acceptedStatuses : List Nat) : Bool :=
  acceptedStatuses.contains httpStatus

/-- Modelled from the spec: `decodeHTTPError` is called by `getOneIssue`,
`UpdateIssue`, `DeleteIssue`, `getOffsetIssueForRequest`, the issue-category and
version operations, but its definition lives in a file absent from the snapshot.
Spec §4.3: attempt to decode the body as the error envelope and fail with the
envelope's `errors` joined by newline characters; if the body cannot be parsed
that way, fail instead with a generic error whose message includes the literal
status line (e.g. `"HTTP 401 Unauthorized"`). -/
def decodeHTTPError (res : Response) : GoError :=
  match res.errorsBody with
  | .ok es => .msg (String.intercalate "\n" es)
  | .error _ => .msg ("HTTP " ++ res.status)

/-! ## Single-entity operations

Each operation is modelled from the point where the server's response is in
hand: request construction is covered by `Client.authenticatedRequest` above,
and the network round-trip itself (whose transport errors are returned
verbatim) is replaced by passing the `Response` as an argument. -/

/-- Go `func getOneIssue(c *Client, id int, args map[string]string)` (issue.go),
response-processing part: 404 maps to a fixed not-found message, any other
non-200 status goes through `decodeHTTPError` wrapped with the operation
context, and on success the body is decoded as `issueResult`. -/
def getOneIssue (id : Int) (res : Response) : Except GoError Issue :=
  if res.statusCode = 404 then
    .error (.msg ("issue (id: " ++ toString id ++ ") was not found"))
  else if ¬ isHTTPStatusSuccessful res.statusCode [200] then
    .error (.wrap ("error while reading issue " ++ toString id) (decodeHTTPError res))
  else
    match res.issueBody with
    | .error m => .error (.jsonError m)
    | .ok i => .ok i

/-- Go `func (c *Client) CreateIssue(issue Issue)` (issue.go), response part:
on a status other than 201 it decodes the body as `errorsResult` inline and
fails with the newline-joined errors, or, when that decode fails, with the
decoder's own error; there is no 404 special case and no status-line fallback. -/
def Client.CreateIssue (_issue : Issue) (res : Response) : Except GoError Issue :=
  if ¬ isHTTPStatusSuccessful res.statusCode [201] then
    match res.errorsBody with
    | .ok es => .error (.msg (String.intercalate "\n" es))
    | .error m => .error (.jsonError m)
  else
    match res.issueBody with
    | .error m => .error (.jsonError m)
    | .ok i => .ok i

/-- Go `func (c *Client) Project(id int)` (project.go), response part: 404 maps
to the not-found message, any other non-200 status decodes the body as
`errorsResult` inline (newline-joined on success, the decoder's error
otherwise), and a 200 decodes the body as `projectResult`. -/
def Client.Project (id : Int) (res : Response) : Except GoError Project :=
  if res.statusCode = 404 then
    .error (.msg ("project (id: " ++ toString id ++ ") was not found"))
  else if ¬ isHTTPStatusSuccessful res.statusCode [200] then
    match res.errorsBody with
    | .ok es => .error (.msg (String.intercalate "\n" es))
    | .error m => .error (.jsonError m)
  else
    match res.projectBody with
    | .error m => .error (.jsonError m)
    | .ok p => .ok p

/-- Go `func (c *Client) UpdateProject(project Project)` (project.go), response
part; `projectId` is `project.Id`. -/
def Client.UpdateProject (projectId : Int) (res : Response) : Except GoError Unit :=
  if res.statusCode = 404 then
    .error (.msg ("could not update project (id: " ++ toString projectId ++ ") because it was not found"))
  else if ¬ isHTTPStatusSuccessful res.statusCode [200, 204] then
    match res.errorsBody with
    | .ok es => .error (.msg (String.intercalate "\n" es))
    | .error m => .error (.jsonError m)
  else
    .ok ()

/-- Go `func (c *Client) DeleteProject(id int)` (project.go), response part.
Note the 404 message in the source reads `"(id %d)"` — without the colon used
by every other not-found message. -/
def Client.DeleteProject (id : Int) (res : Response) : Except GoError Unit :=
  if res.statusCode = 404 then
    .error (.msg ("could not delete project (id " ++ toString id ++ ") because it was not found"))
  else if ¬ isHTTPStatusSuccessful res.statusCode [200, 204] then
    match res.errorsBody with
    | .ok es => .error (.msg (String.intercalate "\n" es))
    | .error m => .error (.jsonError m)
  else
    .ok ()

/-! ## Pagination (issue.go: getOffsetIssueForRequest, getPagedIssuesForRequest)

The repeated GET against the list endpoint reuses one request object and
overwrites only its `offset` query parameter, so the server side is modelled
as a function from that offset to the `Response` it returns.  The Go `for`
loop is embedded with explicit fuel: `none` means the loop has not terminated
within `fuel` iterations. -/

/-- Go `func getOffsetIssueForRequest(c *Client, req *http.Request, offset int)`
(issue.go): sets the `offset` parameter, executes the request, fails through
`decodeHTTPError` on a non-200 status (wrapped with a context naming the
request URL, which the model does not track), and otherwise decodes the body
as `issuesResult`. -/
def getOffsetIssueForRequest (server : Nat → Response) (offset : Nat) :
    Except GoError issuesResult :=
  let res := server offset
  if ¬ isHTTPStatusSuccessful res.statusCode [200] then
    .error (.wrap "issue request returned non-successfully" (decodeHTTPError res))
  else
    match res.issuesBody with
    | .error m => .error (.jsonError m)
    | .ok r => .ok r

/-- The observable outcome of a pagination run: the result of the Go function,
plus the `offset` parameter of every request it issued, in order. -/
structure PagedRun where
  result : Except GoError (List Issue)
  offsets : List Nat
deriving DecidableEq

/-- One unfolding of the `for !completed` loop body of
`getPagedIssuesForRequest` (issue.go), with fuel.  Exactly as in the source,
the completion test `r.TotalCount == uint(len(issues))` compares the reported
total count against the number of issues accumulated BEFORE the fetched page
is appended, and the page is appended even on the completing iteration. -/
def pagedLoop (server : Nat → Response) : Nat → List Issue → List Nat → Option PagedRun
  | 0, _, _ => none
  | fuel + 1, issues, offsets =>
    let off := issues.length
    let offsets2 := offsets ++ [off]
    match getOffsetIssueForRequest server off with
    | .error e => some { result := .error e, offsets := offsets2 }
    | .ok r =>
        let completed := r.totalCount = issues.length
        let issues2 := issues ++ r.issues
        if completed then some { result := .ok issues2, offsets := offsets2 }
        else pagedLoop server fuel issues2 offsets2

/-- Go `func getPagedIssuesForRequest(c *Client, req *http.Request)` (issue.go):
runs the loop from an empty accumulator. -/
def getPagedIssuesForRequest (server : Nat → Response) (fuel : Nat) : Option PagedRun :=
  pagedLoop server fuel [] []

/-- A server that always answers 200 with a well-formed `issuesResult` produced
by `srv`; the other body shapes do not decode (list endpoints only ever decode
`issuesResult`). -/
def okServer (srv : Nat → issuesResult) : Nat → Response :=
  fun off => { statusCode := 200, status := "200 OK", issuesBody := .ok (srv off) }

/-- The simulated list endpoint of the pagination claims: it holds the items
`all`, reports `total_count = all.length`, and serves pages of size `limit`
starting at the requested offset. -/
def goodServer (all : List Issue) (limit : Nat) : Nat → Response :=
  okServer (fun off => { issues := (all.drop off).take limit, totalCount := all.length })

/-- Ceiling division, as used by the claims' `ceil(N/limit)`. -/
def ceilDiv (n l : Nat) : Nat := (n + l - 1) / l

/-- The offsets the loop requests against `goodServer` when it starts with `m`
items already accumulated out of `n`: `m, m+l, m+2*l, …` while short of `n`,
then one final confirming request at offset `n`. -/
def goodOffsets (n l m : Nat) : List Nat :=
  (List.range (ceilDiv (n - m) l)).map (fun k => m + k * l) ++ [n]

/-! ## Substring containment and concrete fixtures -/

/-- `strContains s pat` holds when `pat` occurs contiguously inside `s`
(the semantics of testify's `assert.Contains` on strings). -/
def strContains (s pat : String) : Prop := pat.data <:+: s.data

instance (s pat : String) : Decidable (strContains s pat) :=
  List.decidableInfix pat.data s.data

/-- A concrete issue used by the concrete runs below. -/
def testIssue : Issue := { id := 1 }

/-- A 404 response; like Go's `http.NotFound` it has a plain-text body, so none
of the JSON decodes succeed. -/
def resp404 : Response := { statusCode := 404, status := "404 Not Found" }

/-- A 401 response with an empty body (Go `http.Error(w, "", 401)` writes only
a newline): every JSON decode fails with `io.EOF`, whose message is `"EOF"`. -/
def resp401 : Response := { statusCode := 401, status := "401 Unauthorized" }

/-- The error strings of the HTTP 422 fixture used throughout the test suite. -/
def testErrors : List String := ["Something is not well", "Another thing is also unacceptable"]

/-- A 422 response whose body decodes as `{"errors": [...]}` with `testErrors`. -/
def resp422 : Response :=
  { statusCode := 422, status := "422 Unprocessable Entity", errorsBody := .ok testErrors }

/-- A misbehaving list endpoint: it always reports `total_count = 1` yet serves
an empty page, so the accumulated count never reaches the reported total. -/
def emptyPageServer : Nat → issuesResult := fun _ => { issues := [], totalCount := 1 }

/-- A list endpoint holding 3 items that serves pages of size 1 (shorter than
any limit above 1) while truthfully reporting `total_count = 3`. -/
def shortPagesServer : Nat → issuesResult := fun m =>
  if m < 3 then { issues := [testIssue], totalCount := 3 } else { issues := [], totalCount := 3 }

/-- A list endpoint that reports `total_count = 0` and serves empty pages. -/
def zeroServer : Nat → issuesResult := fun _ => {}

/-- A token-as-query-param auth configuration with the test suite's token. -/
def tokenAuthFix : APIAuth :=
  { authType := AuthTypeTokenQueryParam, token := "123456789", user := "", password := "" }

/-- A basic-auth configuration with the test suite's credentials. -/
def basicAuthFix : APIAuth :=
  { authType := AuthTypeBasicAuth, token := "", user := "leUser", password := "Passwort1!" }

/-- A client using `tokenAuthFix`. -/
def tokenClientFix : Client :=
  { endpoint := "http://server/redmine", auth := tokenAuthFix, limit := -1, offset := -1 }

/-- A client using `basicAuthFix`. -/
def basicClientFix : Client :=
  { endpoint := "http://server/redmine", auth := basicAuthFix, limit := -1, offset := -1 }

/-- A client of the token-as-query-param variant whose token is empty (it can
only arise by filling the struct directly: `NewClient` rejects it). -/
def emptyTokenClientFix : Client :=
  { endpoint := "http://server/redmine",
    auth := { authType := AuthTypeTokenQueryParam, token := "", user := "", password := "" },
    limit := -1, offset := -1 }

/-- The issues URL of the fixtures, with one pre-existing query parameter. -/
def issuesURLFix : URL :=
  { base := "http://server/redmine/issues.json", query := [("project_id", "1")] }

/-! ## Theorems -/

/-- C9: constructing a client via `NewClient` with the basic-auth variant and an
empty user returns a validation error; the failure happens inside `NewClient`
itself (which performs no request), so it occurs at construction time. -/
theorem newClient_emptyUser_fails (endpoint : String) (auth : APIAuth)
    (h1 : auth.authType = AuthTypeBasicAuth) (h2 : auth.user = "") :
    NewClient endpoint auth =
      .error (.wrap "could not create redmine client"
        (.msg "invalid auth configuration for type 0: user must not be empty")) := by
  obtain ⟨a, t, u, p⟩ := auth
  simp only at h1 h2
  subst h1 h2
  rfl

theorem newClient_emptyUser_fails_witness :
    basicAuthFix.authType = AuthTypeBasicAuth
    ∧ NewClient "http://server/redmine" { basicAuthFix with user := "" } =
        .error (.wrap "could not create redmine client"
          (.msg "invalid auth configuration for type 0: user must not be empty")) :=
  ⟨rfl, newClient_emptyUser_fails "http://server/redmine" { basicAuthFix with user := "" } rfl rfl⟩

/-- C10: `APIAuth.validate` never inspects `password`: for the plain basic-auth
variant only `user` must be non-empty, so `NewClient` with a non-empty user and
an arbitrary (in particular empty) password and token succeeds and returns the
filled-in client. -/
theorem newClient_basicAuth_ignores_password (endpoint user password token : String)
    (hu : user ≠ "") :
    APIAuth.validate { authType := AuthTypeBasicAuth, token := token, user := user, password := password } = .ok ()
    ∧ NewClient endpoint { authType := AuthTypeBasicAuth, token := token, user := user, password := password } =
        .ok { endpoint := endpoint,
              auth := { authType := AuthTypeBasicAuth, token := token, user := user, password := password },
              limit := DefaultLimit, offset := DefaultOffset } := by
  have hv : APIAuth.validate { authType := AuthTypeBasicAuth, token := token, user := user, password := password } = .ok () := by
    unfold APIAuth.validate
    simp [AuthTypeBasicAuth, AuthTypeTokenQueryParam, AuthTypeBasicAuthWithTokenPassword,
      AuthTypeNoAuth, hu]
  exact ⟨hv, by unfold NewClient; rw [hv]⟩

theorem newClient_basicAuth_ignores_password_witness :
    "leUser" ≠ ""
    ∧ (APIAuth.validate { authType := AuthTypeBasicAuth, token := "", user := "leUser", password := "" } = .ok ()
       ∧ NewClient "http://server/redmine" { authType := AuthTypeBasicAuth, token := "", user := "leUser", password := "" } =
          .ok { endpoint := "http://server/redmine",
                auth := { authType := AuthTypeBasicAuth, token := "", user := "leUser", password := "" },
                limit := DefaultLimit, offset := DefaultOffset }) :=
  ⟨by decide, newClient_basicAuth_ignores_password "http://server/redmine" "leUser" "" "" (by decide)⟩

/-- C3: `Client.authenticatedRequest` keeps the two auth surfaces exclusive.
With the token-as-query-param variant the built request carries
`("key", token)` in its URL query and no Basic-Auth header; with the basic-auth
variant it carries the `(user, password)` Basic-Auth header and, provided the
incoming URL (which is `urlWithoutAuthInfo`) has no `key` parameter, its URL
still has none. -/
theorem authenticatedRequest_auth_exclusivity (c : Client) (method : String) (u : URL)
    (hu : ∀ v, ("key", v) ∉ u.query) :
    (c.auth.authType = AuthTypeTokenQueryParam →
      ∃ r, c.authenticatedRequest method u = .ok r ∧
        ("key", c.auth.token) ∈ r.url.query ∧ r.basicAuth = none)
    ∧ (c.auth.authType = AuthTypeBasicAuth →
      ∃ r, c.authenticatedRequest method u = .ok r ∧
        r.basicAuth = some (c.auth.user, c.auth.password) ∧
        ∀ v, ("key", v) ∉ r.url.query) := by
  constructor
  · intro h
    refine ⟨safelyAddQueryParameter { method := method, url := u, basicAuth := none } "key" c.auth.token, ?_, ?_, ?_⟩
    · unfold Client.authenticatedRequest
      rw [h]
      simp [AuthTypeBasicAuth, AuthTypeTokenQueryParam]
    · simp [safelyAddQueryParameter]
    · simp [safelyAddQueryParameter]
  · intro h
    refine ⟨{ method := method, url := u, basicAuth := some (c.auth.user, c.auth.password) }, ?_, rfl, hu⟩
    unfold Client.authenticatedRequest
    rw [h]
    simp [AuthTypeBasicAuth]

theorem authenticatedRequest_auth_exclusivity_witness :
    (∀ v, ("key", v) ∉ issuesURLFix.query)
    ∧ ((tokenClientFix.auth.authType = AuthTypeTokenQueryParam →
        ∃ r, tokenClientFix.authenticatedRequest "GET" issuesURLFix = .ok r ∧
          ("key", tokenClientFix.auth.token) ∈ r.url.query ∧ r.basicAuth = none)
      ∧ (tokenClientFix.auth.authType = AuthTypeBasicAuth →
        ∃ r, tokenClientFix.authenticatedRequest "GET" issuesURLFix = .ok r ∧
          r.basicAuth = some (tokenClientFix.auth.user, tokenClientFix.auth.password) ∧
          ∀ v, ("key", v) ∉ r.url.query)) :=
  ⟨fun v hv => by simp [issuesURLFix] at hv,
   authenticatedRequest_auth_exclusivity tokenClientFix "GET" issuesURLFix
     (fun v hv => by simp [issuesURLFix] at hv)⟩

/-- C7 counterexample: with the token-as-query-param variant and an EMPTY token,
the built request's URL does contain a `key` parameter — with empty value — for
`safelyAddQueryParameter` only skips the pair when the parameter NAME is empty. -/
theorem emptyToken_keyParam_cex :
    emptyTokenClientFix.authenticatedRequest "GET" issuesURLFix =
      .ok { method := "GET",
            url := { base := "http://server/redmine/issues.json",
                     query := [("project_id", "1"), ("key", "")] },
            basicAuth := none } := by
  decide

/-- C7 (amended): with the token-as-query-param variant the `key` parameter is
appended unconditionally — an empty token yields an empty-valued `key=` pair —
because `safelyAddQueryParameter` omits a pair only when the parameter NAME is
empty; an empty-token client of this variant is however rejected by
`NewClient`'s validation, so it cannot arise through the supported constructor. -/
theorem tokenParam_appended_even_when_empty (c : Client) (method : String) (u : URL)
    (h : c.auth.authType = AuthTypeTokenQueryParam) :
    (∃ r, c.authenticatedRequest method u = .ok r ∧
       r.url.query = u.query ++ [("key", c.auth.token)])
    ∧ (∀ req value, safelyAddQueryParameter req "" value = req)
    ∧ (c.auth.token = "" →
        NewClient c.endpoint c.auth =
          .error (.wrap "could not create redmine client"
            (.msg "invalid auth configuration for type 1: API token must not be empty"))) := by
  refine ⟨⟨safelyAddQueryParameter { method := method, url := u, basicAuth := none } "key" c.auth.token, ?_, ?_⟩, ?_, ?_⟩
  · unfold Client.authenticatedRequest
    rw [h]
    simp [AuthTypeBasicAuth, AuthTypeTokenQueryParam]
  · simp [safelyAddQueryParameter]
  · intro req value
    simp [safelyAddQueryParameter]
  · intro htok
    obtain ⟨e, ⟨a, t, us, p⟩, li, o⟩ := c
    simp only at h htok
    subst h htok
    rfl

theorem tokenParam_appended_even_when_empty_witness :
    emptyTokenClientFix.auth.authType = AuthTypeTokenQueryParam
    ∧ ((∃ r, emptyTokenClientFix.authenticatedRequest "GET" issuesURLFix = .ok r ∧
         r.url.query = issuesURLFix.query ++ [("key", emptyTokenClientFix.auth.token)])
      ∧ (∀ req value, safelyAddQueryParameter req "" value = req)
      ∧ (emptyTokenClientFix.auth.token = "" →
          NewClient emptyTokenClientFix.endpoint emptyTokenClientFix.auth =
            .error (.wrap "could not create redmine client"
              (.msg "invalid auth configuration for type 1: API token must not be empty")))) :=
  ⟨rfl, tokenParam_appended_even_when_empty emptyTokenClientFix "GET" issuesURLFix rfl⟩

/-- C4: evaluation of the three cited operations on an HTTP 404 response.
`getOneIssue` and `UpdateProject` produce the claimed colon form `(id: 1)`, but
`DeleteProject` produces `(id 1)` — without the colon — contradicting both the
claim and the repository's own test, which asserts that the message contains
`"could not delete project (id: 1)"`. -/
theorem notFound_message_colon_bug :
    getOneIssue 1 resp404 = .error (.msg "issue (id: 1) was not found")
    ∧ Client.UpdateProject 1 resp404 =
        .error (.msg "could not update project (id: 1) because it was not found")
    ∧ Client.DeleteProject 1 resp404 =
        .error (.msg "could not delete project (id 1) because it was not found")
    ∧ ¬ strContains (GoError.msg "could not delete project (id 1) because it was not found").message
        "could not delete project (id: 1)" := by
  refine ⟨rfl, rfl, rfl, by decide⟩

/-- C5 counterexample: `CreateIssue` decodes the error envelope inline with no
status-line fallback, so an HTTP 401 with an empty (unparsable) body surfaces
the JSON decoder's error, whose message `"EOF"` does not contain the literal
status line `"HTTP 401 Unauthorized"`. -/
theorem createIssue_bodyless_401_cex :
    Client.CreateIssue testIssue resp401 = .error (.jsonError "EOF")
    ∧ ¬ strContains (GoError.jsonError "EOF").message "HTTP 401 Unauthorized" :=
  ⟨rfl, by decide⟩

/-- C5 (amended): for operations that route error statuses through
`decodeHTTPError` — here `getOneIssue` as representative — an error-status
response (other than 404) whose body does not decode as the error envelope
yields an error whose message contains the literal status line
`"HTTP <status>"`; `decodeHTTPError` itself produces exactly that message. -/
theorem decodeHTTPError_statusline_fallback (id : Int) (res : Response) (m : String)
    (h404 : res.statusCode ≠ 404)
    (hbad : isHTTPStatusSuccessful res.statusCode [200] = false)
    (hparse : res.errorsBody = .error m) :
    decodeHTTPError res = .msg ("HTTP " ++ res.status)
    ∧ ∃ e, getOneIssue id res = .error e ∧ strContains e.message ("HTTP " ++ res.status) := by
  have hd : decodeHTTPError res = .msg ("HTTP " ++ res.status) := by
    unfold decodeHTTPError
    rw [hparse]
  refine ⟨hd, .wrap ("error while reading issue " ++ toString id) (.msg ("HTTP " ++ res.status)), ?_, ?_⟩
  · unfold getOneIssue
    rw [if_neg h404, if_pos (by simp [hbad]), hd]
  · show strContains (("error while reading issue " ++ toString id) ++ ": " ++ ("HTTP " ++ res.status))
      ("HTTP " ++ res.status)
    unfold strContains
    refine List.IsSuffix.isInfix ?_
    refine ⟨(("error while reading issue " ++ toString id) ++ ": ").data, ?_⟩
    rw [← String.data_append, String.append_assoc]

theorem decodeHTTPError_statusline_fallback_witness :
    resp401.statusCode ≠ 404
    ∧ isHTTPStatusSuccessful resp401.statusCode [200] = false
    ∧ resp401.errorsBody = .error "EOF"
    ∧ (decodeHTTPError resp401 = .msg ("HTTP " ++ resp401.status)
       ∧ ∃ e, getOneIssue 7 resp401 = .error e ∧ strContains e.message ("HTTP " ++ resp401.status)) :=
  ⟨by decide, by decide, rfl, decodeHTTPError_statusline_fallback 7 resp401 "EOF" (by decide) (by decide) rfl⟩

/-- C6: a non-404 error-status response whose body decodes as
`{"errors": [...]}` makes `Client.Project` (non-200 status) and
`Client.CreateIssue` (non-201 status) fail with exactly the envelope's error
strings joined by newline characters. -/
theorem errorEnvelope_newline_join (idp : Int) (iss : Issue) (res : Response) (es : List String)
    (h404 : res.statusCode ≠ 404)
    (h200 : isHTTPStatusSuccessful res.statusCode [200] = false)
    (h201 : isHTTPStatusSuccessful res.statusCode [201] = false)
    (henv : res.errorsBody = .ok es) :
    Client.Project idp res = .error (.msg (String.intercalate "\n" es))
    ∧ Client.CreateIssue iss res = .error (.msg (String.intercalate "\n" es)) := by
  constructor
  · unfold Client.Project
    rw [if_neg h404, if_pos (by simp [h200]), henv]
  · unfold Client.CreateIssue
    rw [if_pos (by simp [h201]), henv]

theorem errorEnvelope_newline_join_witness :
    resp422.statusCode ≠ 404
    ∧ isHTTPStatusSuccessful resp422.statusCode [200] = false
    ∧ isHTTPStatusSuccessful resp422.statusCode [201] = false
    ∧ resp422.errorsBody = .ok testErrors
    ∧ String.intercalate "\n" testErrors =
        "Something is not well\nAnother thing is also unacceptable"
    ∧ (Client.Project 1 resp422 = .error (.msg (String.intercalate "\n" testErrors))
       ∧ Client.CreateIssue testIssue resp422 = .error (.msg (String.intercalate "\n" testErrors))) :=
  ⟨by decide, by decide, by decide, rfl, by decide,
   errorEnvelope_newline_join 1 testIssue resp422 testErrors (by decide) (by decide) (by decide) rfl⟩

/-! ## Pagination lemmas -/

lemma ceilDiv_zero (l : Nat) : ceilDiv 0 l = 0 := by
  unfold ceilDiv
  cases l with
  | zero => rfl
  | succ n => exact Nat.div_eq_of_lt (by omega)

lemma ceilDiv_of_pos (n l : Nat) (hl : 0 < l) (hn : 0 < n) :
    ceilDiv n l = (n - 1) / l + 1 := by
  unfold ceilDiv
  have h : n + l - 1 = (n - 1) + l := by omega
  rw [h, Nat.add_div_right _ hl]

lemma ceilDiv_step (n l : Nat) (hl : 0 < l) (hn : 0 < n) :
    ceilDiv n l = ceilDiv (n - l) l + 1 := by
  rcases le_or_lt n l with h | h
  · have h0 : n - l = 0 := by omega
    rw [h0, ceilDiv_zero, ceilDiv_of_pos n l hl hn, Nat.div_eq_of_lt (by omega)]
  · have hn2 : 0 < n - l := by omega
    rw [ceilDiv_of_pos n l hl hn, ceilDiv_of_pos (n - l) l hl hn2]
    have e1 : n - 1 = (n - l - 1) + l := by omega
    rw [e1, Nat.add_div_right _ hl]

lemma le_ceilDiv_mul (n l : Nat) (hl : 0 < l) : n ≤ ceilDiv n l * l := by
  rcases Nat.eq_zero_or_pos n with h | h
  · simp [h]
  · rw [ceilDiv_of_pos n l hl h]
    have hdm := Nat.div_add_mod (n - 1) l
    have hml : (n - 1) % l < l := Nat.mod_lt _ hl
    have hmul : ((n - 1) / l + 1) * l = l * ((n - 1) / l) + l := by ring
    rw [hmul]
    set x := l * ((n - 1) / l) with hx
    omega

lemma mul_lt_of_lt_ceilDiv (n l k : Nat) (hl : 0 < l) (hk : k < ceilDiv n l) :
    k * l < n := by
  rcases Nat.eq_zero_or_pos n with h0 | h0
  · rw [h0, ceilDiv_zero] at hk
    omega
  · rw [ceilDiv_of_pos n l hl h0] at hk
    have hk2 : k ≤ (n - 1) / l := by omega
    have := (Nat.le_div_iff_mul_le hl).mp hk2
    omega

lemma goodOffsets_last (n l : Nat) : goodOffsets n l n = [n] := by
  unfold goodOffsets
  rw [Nat.sub_self, ceilDiv_zero]
  rfl

lemma goodOffsets_cons (n l m : Nat) (hl : 0 < l) (hm : m < n) :
    goodOffsets n l m = m :: goodOffsets n l (min (m + l) n) := by
  rcases le_or_lt (m + l) n with h | h
  · have hmin : min (m + l) n = m + l := min_eq_left h
    rw [hmin]
    unfold goodOffsets
    have hsub : n - (m + l) = (n - m) - l := by omega
    have hstep : ceilDiv (n - m) l = ceilDiv ((n - m) - l) l + 1 :=
      ceilDiv_step (n - m) l hl (by omega)
    rw [hsub, hstep, List.range_succ_eq_map, List.map_cons, List.map_map, List.cons_append]
    have hfun : ((fun k => m + k * l) ∘ Nat.succ) = fun k => (m + l) + k * l := by
      funext k
      simp [Nat.succ_mul]
      ring
    rw [hfun]
    simp
  · have hmin : min (m + l) n = n := min_eq_right (by omega)
    rw [hmin, goodOffsets_last]
    unfold goodOffsets
    have hsub : n - m ≤ l := by omega
    have hcd : ceilDiv (n - m) l = 1 := by
      rw [ceilDiv_of_pos (n - m) l hl (by omega), Nat.div_eq_of_lt (by omega)]
    rw [hcd, show List.range 1 = [0] from rfl]
    simp

lemma goodOffsets_length (n l m : Nat) :
    (goodOffsets n l m).length = ceilDiv (n - m) l + 1 := by
  unfold goodOffsets
  simp

lemma getOffset_goodServer (all : List Issue) (l off : Nat) :
    getOffsetIssueForRequest (goodServer all l) off =
      .ok { issues := (all.drop off).take l, totalCount := all.length } := rfl

lemma getOffset_okServer (srv : Nat → issuesResult) (off : Nat) :
    getOffsetIssueForRequest (okServer srv) off = .ok (srv off) := rfl

lemma pagedLoop_goodServer (all : List Issue) (l : Nat) (hl : 0 < l) :
    ∀ fuel m offsets, m ≤ all.length → ceilDiv (all.length - m) l + 1 ≤ fuel →
      pagedLoop (goodServer all l) fuel (all.take m) offsets =
        some { result := .ok all, offsets := offsets ++ goodOffsets all.length l m } := by
  intro fuel
  induction fuel with
  | zero => intro m offsets hm hf; omega
  | succ fuel ih =>
    intro m offsets hm hf
    have hlen : (all.take m).length = m := by
      rw [List.length_take]
      omega
    simp only [pagedLoop, getOffset_goodServer, hlen]
    by_cases hc : all.length = m
    · rw [if_pos hc]
      subst hc
      rw [goodOffsets_last]
      simp [List.drop_length, List.take_length]
    · rw [if_neg hc]
      have hmlt : m < all.length := by omega
      have htake : all.take m ++ (all.drop m).take l = all.take (min (m + l) all.length) := by
        rw [← List.take_add]
        rcases le_or_lt (m + l) all.length with h | h
        · rw [min_eq_left h]
        · rw [min_eq_right (le_of_lt h), List.take_length,
            List.take_of_length_le (le_of_lt h)]
      have hstep : ceilDiv (all.length - m) l =
          ceilDiv (all.length - min (m + l) all.length) l + 1 := by
        have h1 : all.length - min (m + l) all.length = (all.length - m) - l := by omega
        rw [h1]
        exact ceilDiv_step _ l hl (by omega)
      rw [htake, ih (min (m + l) all.length) (offsets ++ [m]) (min_le_right _ _) (by omega),
        goodOffsets_cons all.length l m hl hmlt]
      simp

lemma pagedLoop_emptyPageServer (fuel : Nat) :
    ∀ offsets, pagedLoop (okServer emptyPageServer) fuel [] offsets = none := by
  induction fuel with
  | zero => intro offsets; rfl
  | succ fuel ih =>
    intro offsets
    simp only [pagedLoop, getOffset_okServer, emptyPageServer, List.length_nil]
    rw [if_neg (by decide)]
    exact ih _

/-- C1 counterexample: against the simulated endpoint holding 1 item with page
size 25, the completed pagination run issues 2 requests (offsets 0 and then 1)
— the Go test observes exactly these two calls — whereas the claim's
`ceil(N/limit) = ceil(1/25) = 1` predicts a single request. -/
theorem getPagedIssues_requestCount_cex :
    getPagedIssuesForRequest (goodServer [testIssue] 25) 2 =
      some { result := .ok [testIssue], offsets := [0, 1] }
    ∧ ([0, 1] : List Nat).length ≠ ceilDiv 1 25 :=
  ⟨rfl, by decide⟩

/-- C1 (amended): against a simulated endpoint that holds `all` (N items) and
serves pages of size `limit > 0` while reporting `total_count = N`, the
pagination loop completes after exactly `ceil(N/limit) + 1` requests — the
completion test compares the reported total with the count accumulated BEFORE
appending, so one further request at offset N confirms completion (for N = 0
that confirming request is the single first request) — returns exactly the N
items in page order, and the `offset` parameter of request k (counted from 0)
equals the number of items accumulated before request k, namely
`min (k * limit) N`. -/
theorem getPagedIssues_goodServer_run (all : List Issue) (limit : Nat) (hl : 0 < limit) :
    getPagedIssuesForRequest (goodServer all limit) (ceilDiv all.length limit + 1) =
      some { result := .ok all, offsets := goodOffsets all.length limit 0 }
    ∧ (goodOffsets all.length limit 0).length = ceilDiv all.length limit + 1
    ∧ ∀ k, k < (goodOffsets all.length limit 0).length →
        (goodOffsets all.length limit 0).getD k 0 = min (k * limit) all.length := by
  refine ⟨?_, ?_, ?_⟩
  · have h := pagedLoop_goodServer all limit hl (ceilDiv all.length limit + 1) 0 []
      (Nat.zero_le _) (by rw [Nat.sub_zero])
    rw [List.take_zero] at h
    rw [getPagedIssuesForRequest, h]
    simp
  · rw [goodOffsets_length, Nat.sub_zero]
  · intro k hk
    rw [goodOffsets_length, Nat.sub_zero] at hk
    unfold goodOffsets
    rw [Nat.sub_zero]
    rcases Nat.lt_or_ge k (ceilDiv all.length limit) with h | h
    · rw [List.getD_append _ _ _ _ (by simp [h])]
      rw [List.getD_eq_getElem?_getD, List.getElem?_map, List.getElem?_range h]
      have hlt : k * limit < all.length := mul_lt_of_lt_ceilDiv all.length limit k hl h
      simp [min_eq_left (le_of_lt hlt)]
    · have hke : k = ceilDiv all.length limit := by omega
      rw [List.getD_append_right _ _ _ _ (by simp [h])]
      simp only [List.length_map, List.length_range]
      rw [hke, Nat.sub_self]
      have hge : all.length ≤ ceilDiv all.length limit * limit :=
        le_ceilDiv_mul all.length limit hl
      simp [min_eq_right hge]

theorem getPagedIssues_goodServer_run_witness :
    (0 : Nat) < 2
    ∧ (getPagedIssuesForRequest (goodServer [testIssue, testIssue, testIssue] 2)
          (ceilDiv ([testIssue, testIssue, testIssue] : List Issue).length 2 + 1) =
        some { result := .ok [testIssue, testIssue, testIssue],
               offsets := goodOffsets ([testIssue, testIssue, testIssue] : List Issue).length 2 0 }
      ∧ (goodOffsets ([testIssue, testIssue, testIssue] : List Issue).length 2 0).length =
          ceilDiv ([testIssue, testIssue, testIssue] : List Issue).length 2 + 1
      ∧ ∀ k, k < (goodOffsets ([testIssue, testIssue, testIssue] : List Issue).length 2 0).length →
          (goodOffsets ([testIssue, testIssue, testIssue] : List Issue).length 2 0).getD k 0 =
            min (k * 2) ([testIssue, testIssue, testIssue] : List Issue).length) :=
  ⟨by decide, getPagedIssues_goodServer_run [testIssue, testIssue, testIssue] 2 (by decide)⟩

/-- C2 counterexample: against a server that always reports `total_count = 1`
yet serves an empty page — pages shorter than any limit, `total_count` staying
at N = 1 above the accumulated count 0 — the loop never terminates: no amount
of fuel makes it return. -/
theorem pagedLoop_nontermination_cex :
    ¬ ∃ fuel, (getPagedIssuesForRequest (okServer emptyPageServer) fuel).isSome = true := by
  rintro ⟨fuel, h⟩
  rw [getPagedIssuesForRequest, pagedLoop_emptyPageServer] at h
  simp at h

/-- C2 (amended): the loop's stopping is decided purely by the
`totalCount = accumulated` equality test (the definition of `pagedLoop` never
consults a limit), and under shortened pages it still terminates PROVIDED every
page served while the accumulated count is below the reported total is
nonempty and never pushes the accumulated count past that total: then fuel
`N + 1` suffices for the run to return. -/
theorem getPagedIssues_short_pages_terminate (srv : Nat → issuesResult) (n : Nat)
    (htc : ∀ m, (srv m).totalCount = n)
    (hpage : ∀ m, m < n → (srv m).issues ≠ [] ∧ m + (srv m).issues.length ≤ n) :
    (getPagedIssuesForRequest (okServer srv) (n + 1)).isSome = true := by
  suffices h : ∀ fuel xs offsets, xs.length ≤ n → n - xs.length < fuel →
      (pagedLoop (okServer srv) fuel xs offsets).isSome = true by
    exact h (n + 1) [] [] (by simp) (by simp)
  intro fuel
  induction fuel with
  | zero => intro xs offsets h1 h2; omega
  | succ fuel ih =>
    intro xs offsets h1 h2
    simp only [pagedLoop, getOffset_okServer]
    by_cases hc : (srv xs.length).totalCount = xs.length
    · rw [if_pos hc]
      rfl
    · rw [if_neg hc]
      have hlt : xs.length < n := by
        have := htc xs.length
        omega
      obtain ⟨hne, hle⟩ := hpage xs.length hlt
      have hpos : 0 < (srv xs.length).issues.length := List.length_pos.mpr hne
      apply ih
      · rw [List.length_append]
        omega
      · rw [List.length_append]
        omega

theorem getPagedIssues_short_pages_terminate_witness :
    (∀ m, (shortPagesServer m).totalCount = 3)
    ∧ (∀ m, m < 3 → (shortPagesServer m).issues ≠ [] ∧ m + (shortPagesServer m).issues.length ≤ 3)
    ∧ (getPagedIssuesForRequest (okServer shortPagesServer) 4).isSome = true := by
  have h1 : ∀ m, (shortPagesServer m).totalCount = 3 := by
    intro m
    unfold shortPagesServer
    split <;> rfl
  have h2 : ∀ m, m < 3 → (shortPagesServer m).issues ≠ [] ∧ m + (shortPagesServer m).issues.length ≤ 3 := by
    intro m hm
    unfold shortPagesServer
    rw [if_pos hm]
    refine ⟨by simp, ?_⟩
    simp only [List.length_cons, List.length_nil]
    omega
  exact ⟨h1, h2, getPagedIssues_short_pages_terminate shortPagesServer 3 h1 h2⟩

/-- C8: when the first response reports `totalCount = 0` (and, being consistent
with that, serves no items), the loop returns an empty result and its request
trace is exactly `[0]` — one request was issued, none skipped — for every
amount of fuel of at least one iteration. -/
theorem totalCountZero_single_request (srv : Nat → issuesResult) (fuel : Nat)
    (h0 : (srv 0).totalCount = 0) (he : (srv 0).issues = []) :
    getPagedIssuesForRequest (okServer srv) (fuel + 1) =
      some { result := .ok [], offsets := [0] } := by
  rw [getPagedIssuesForRequest]
  simp only [pagedLoop, getOffset_okServer, List.length_nil]
  rw [if_pos h0, he]
  rfl

theorem totalCountZero_single_request_witness :
    (zeroServer 0).totalCount = 0
    ∧ (zeroServer 0).issues = []
    ∧ getPagedIssuesForRequest (okServer zeroServer) 1 =
        some { result := .ok [], offsets := [0] } :=
  ⟨rfl, rfl, totalCountZero_single_request zeroServer 0 rfl rfl⟩

end Redmine
